import Mathlib

set_option maxHeartbeats 1000000

/-!
Shallow embedding of the valuation and screening engine of `stockworth.py`
(the authoritative variant per the spec), over exact real arithmetic.
Python floats are idealised as real numbers; `numpy`/`math` functions are
modelled by their Mathlib counterparts (`math.log1p x` as
`Real.log (1 + x)`, `np.median` by sorting, `np.std` as the population
standard deviation).  Provider calls (`yfinance`) are modelled as explicit
inputs: a fetch that may fail is an `Option`-valued input.
-/

namespace Stockworth

/-- One evaluated criterion, mirroring the Python tuples
`(name, passed, observed_value)` built in `analyze_stock`. -/
abbrev Criterion (α : Type) := String × Bool × α

/-- The criteria block of `analyze_stock` (src/stockworth.py lines 131-141):
builds the fixed list of 7 criteria and the aggregate recommendation
`"Buy" if all(result for _, result, _ in criteria) else "Not Buy"`.
Generic over an ordered field so the same definition serves the real-valued
pipeline and decidable concrete instances over the rationals. -/
def evaluateCriteria {α : Type} [LinearOrderedField α]
    (eps pe pb debtToEquity intrinsicValue currentPrice marginSafety divYield : α) :
    String × List (Criterion α) :=
  let criteria : List (Criterion α) :=
    [("EPS > 0", decide (eps > 0), eps),
     ("P/E < 20", decide (pe < 20), pe),
     ("P/B < 2", decide (pb < 2), pb),
     ("Debt-to-Equity < 0.5", decide (debtToEquity < 0.5), debtToEquity),
     ("Intrinsic Value > Current Price", decide (intrinsicValue > currentPrice), intrinsicValue),
     ("Margin of Safety > 30%", decide (marginSafety > 30), marginSafety),
     ("Dividend Yield > 0", decide (divYield > 0), divYield)]
  (if criteria.all (fun c => c.2.1) then "Buy" else "Not Buy", criteria)

/-- Graham-style intrinsic value, `calculate_intrinsic_value` of
src/stockworth.py (lines 87-96): returns 0 when `eps <= 0 or bond_yield <= 0`,
otherwise `eps * (7 + 1.5 * min(math.log1p(growth_rate * 100), 2)) * (4.4 / bond_yield)`. -/
noncomputable def calculate_intrinsic_value (eps growth_rate bond_yield : ℝ) : ℝ :=
  if eps ≤ 0 ∨ bond_yield ≤ 0 then 0
  else eps * (7 + 1.5 * min (Real.log (1 + growth_rate * 100)) 2) * (4.4 / bond_yield)

/-- The intrinsic value as the engine uses it
(src/stockworth.py lines 122-124): the calculator's output capped by
`min(intrinsic_value, 5 * current_price)`. -/
noncomputable def cappedIntrinsicValue (eps growth_rate bond_yield current_price : ℝ) : ℝ :=
  min (calculate_intrinsic_value eps growth_rate bond_yield) (5 * current_price)

/-- Margin of safety (src/stockworth.py lines 127-128):
`((intrinsic_value - current_price) / current_price) * 100 if current_price else 0`,
then `min(max(margin_of_safety, -50), 100)`. -/
noncomputable def marginOfSafety (intrinsic_value current_price : ℝ) : ℝ :=
  let m := if current_price ≠ 0 then (intrinsic_value - current_price) / current_price * 100 else 0
  min (max m (-50)) 100

/-- The per-ticker metrics snapshot extracted from the provider's `info`
dictionary in `analyze_stock` (an absent `trailingEps` is folded into the
nonpositive-EPS gate, which also catches the falsy values `None` and `0`). -/
structure StockInfo where
  currentPrice : ℝ
  eps : ℝ
  pe : ℝ
  pb : ℝ
  debtToEquity : ℝ
  divYieldRaw : ℝ

/-- The body of `analyze_stock` (src/stockworth.py lines 99-141) after the
provider fetch: gate on `not eps or eps <= 0` returning the single-criterion
result, otherwise cap the intrinsic value, compute the clamped margin of
safety, scale the dividend yield by 100 and evaluate the criteria battery.
The growth rate and bond yield are passed in as the code computes them. -/
noncomputable def analyzeStock (info : StockInfo) (growthRate bondYield : ℝ) :
    String × List (Criterion ℝ) :=
  if info.eps ≤ 0 then ("Not Buy", [("EPS > 0", false, info.eps)])
  else
    let intrinsicValue := cappedIntrinsicValue info.eps growthRate bondYield info.currentPrice
    let margin := marginOfSafety intrinsicValue info.currentPrice
    evaluateCriteria info.eps info.pe info.pb info.debtToEquity intrinsicValue
      info.currentPrice margin (info.divYieldRaw * 100)

/-- Median of three values (the only median sizes `get_growth_rate` needs are
3-element slices); symmetric in its arguments. -/
noncomputable def med3 (a b c : ℝ) : ℝ := max (min a b) (min c (max a b))

/-- Median of the first three elements of a list (`np.median(values[:3])`);
only used under a guard ensuring the list has at least 3 elements. -/
noncomputable def med3List : List ℝ → ℝ
  | a :: b :: c :: _ => med3 a b c
  | _ => 0

/-- Compound annual growth rate in percent, `calculate_cagr` of
src/stockworth.py (lines 49-59): `None` on `initial <= 0 or final <= 0 or
years <= 0`, otherwise `((final / initial) ** (1 / years) - 1) * 100`
(always finite over the reals, so the `np.isfinite` guard never fires). -/
noncomputable def calculate_cagr (initial final : ℝ) (years : ℕ) : Option ℝ :=
  if initial ≤ 0 ∨ final ≤ 0 ∨ years = 0 then none
  else some (((final / initial) ^ ((1 : ℝ) / (years : ℝ)) - 1) * 100)

/-- Growth-rate estimator, `get_growth_rate` of src/stockworth.py
(lines 62-84), as a function of the fetched non-missing net-income
observations (in the provider's newest-first column order, which the code
reverses): default when fewer than 3 observations; otherwise
`smoothed_income = np.median(net_income_values[-3:])`,
`initial = np.median(net_income_values[:3])`, `years = len - 1`, and
`max(0, min(cagr, 10)) / 100` when the CAGR is defined, else the default. -/
noncomputable def get_growth_rate (netIncome : List ℝ) (defaultGrowthRate : ℝ) : ℝ :=
  if netIncome.length < 3 then defaultGrowthRate
  else
    let values := netIncome.reverse
    let smoothed_income := med3List values.reverse
    let initial := med3List values
    let years := values.length - 1
    match calculate_cagr initial smoothed_income years with
    | some cagr => max 0 (min cagr 10) / 100
    | none => defaultGrowthRate

/-- Modelled from the spec: the reference growth-rate algorithm of spec §4.2,
stated over a history ordered oldest to newest.  Require at least 3
observations; `initial` is the median of the earliest 3, `final` the median
of the latest 3, `years = count - 1`; return the default when
`initial ≤ 0`, `final ≤ 0` or `years ≤ 0` (the non-finite CAGR escape is
vacuous over the reals); otherwise clamp
`(final / initial) ^ (1 / years) - 1` to `[0, 0.10]`. -/
noncomputable def estimateSpec (history : List ℝ) (defaultGrowth : ℝ) : ℝ :=
  if history.length < 3 then defaultGrowth
  else
    let initial := med3List history
    let final := med3List history.reverse
    let years := history.length - 1
    if initial ≤ 0 ∨ final ≤ 0 ∨ years = 0 then defaultGrowth
    else max 0 (min ((final / initial) ^ ((1 : ℝ) / (years : ℝ)) - 1) 0.10)

/-- Insert a value into a sorted list, keeping it sorted. -/
noncomputable def insertSorted (x : ℝ) : List ℝ → List ℝ
  | [] => [x]
  | y :: ys => if x ≤ y then x :: y :: ys else y :: insertSorted x ys

/-- Insertion sort, modelling the sort inside `np.median`. -/
noncomputable def sortList (l : List ℝ) : List ℝ := l.foldr insertSorted []

/-- Arithmetic mean, `np.mean`. -/
noncomputable def npMean (l : List ℝ) : ℝ := l.sum / l.length

/-- Population standard deviation, `np.std` (ddof = 0). -/
noncomputable def npStd (l : List ℝ) : ℝ :=
  Real.sqrt ((l.map (fun x => (x - npMean l) ^ 2)).sum / l.length)

/-- Median, `np.median`: middle of the sorted list, or the average of the two
middle elements when the length is even. -/
noncomputable def npMedian (l : List ℝ) : ℝ :=
  let s := sortList l
  let n := l.length
  if n % 2 = 1 then s.getD (n / 2) 0
  else (s.getD (n / 2 - 1) 0 + s.getD (n / 2) 0) / 2

/-- Outlier threshold, `detect_outliers` of src/stockworth.py (lines 25-33):
`None` on fewer than 10 values, else `median + 3 * std` (3-sigma rule). -/
noncomputable def detect_outliers (intrinsic_values : List ℝ) : Option ℝ :=
  if intrinsic_values.length < 10 then none
  else some (npMedian intrinsic_values + 3 * npStd intrinsic_values)

/-- Bond-yield resolver, `fetch_bond_yield` of src/stockworth.py
(lines 36-46), as a function of the fetch outcome: `none` models any raised
exception (network failure, malformed response), an empty close series models
`iloc[-1]` raising (also caught); a successful fetch converts the latest
close from percent to decimal and clamps, `max(0.01, min(latest, 0.10))`.
Any failure returns `default_yield` as given. -/
noncomputable def fetch_bond_yield (history : Option (List ℝ)) (default_yield : ℝ) : ℝ :=
  match history with
  | none => default_yield
  | some closes =>
    match closes.getLast? with
    | none => default_yield
    | some latest_close => max 0.01 (min (latest_close / 100) 0.10)

/-- One per-ticker coroutine: the whole body of `analyze_stock` sits in a
`try`/`except Exception` block, so a provider failure (modelled as `none`)
is caught and becomes the value `("Error", [])` (src/stockworth.py
lines 143-145); the coroutine itself never raises.  On success the analysis
runs with the growth rate estimated from the fetched net-income history and
the shared bond yield. -/
noncomputable def analyzeStockTask (fetched : Option StockInfo) (netIncome : List ℝ)
    (bondYield : ℝ) : String × List (Criterion ℝ) :=
  match fetched with
  | none => ("Error", [])
  | some info => analyzeStock info (get_growth_rate netIncome 0.03) bondYield

/-- One entry of `asyncio.gather(*tasks, return_exceptions=True)`: either the
tuple the coroutine returned, or an exception object that escaped it. -/
inductive TaskResult where
  | exn : TaskResult
  | value : String × List (Criterion ℝ) → TaskResult

/-- The gathered results of the batch (src/stockworth.py lines 167-168):
one task per ticker; since `analyze_stock` catches every `Exception`, each
gathered entry is a returned value, never an escaped exception. -/
noncomputable def gatherResults (provider : String → Option StockInfo)
    (histories : String → List ℝ) (bondYield : ℝ) (tickers : List String) :
    List TaskResult :=
  tickers.map (fun t => TaskResult.value (analyzeStockTask (provider t) (histories t) bondYield))

/-- The result-processing loop of `main` (src/stockworth.py lines 170-181):
`for ticker, result in zip(tickers, results)`, an exception instance is
appended to `errors`, otherwise the ticker is appended to
`buy_recommendations` exactly when its recommendation is `"Buy"`. -/
noncomputable def processResults :
    List String → List TaskResult → List (String × List (Criterion ℝ)) × List String
  | t :: ts, r :: rs =>
    let rest := processResults ts rs
    match r with
    | TaskResult.exn => (rest.1, t :: rest.2)
    | TaskResult.value (rec, criteria) =>
      (if rec = "Buy" then (t, criteria) :: rest.1 else rest.1, rest.2)
  | _, _ => ([], [])

/-- The batch orchestration of `main` (src/stockworth.py lines 160-181),
with the ticker list, the provider and the resolved bond yield as inputs:
gather one analysis per ticker and fold the results into the buy list and
the error list. -/
noncomputable def mainModel (provider : String → Option StockInfo)
    (histories : String → List ℝ) (bondYield : ℝ) (tickers : List String) :
    List (String × List (Criterion ℝ)) × List String :=
  processResults tickers (gatherResults provider histories bondYield tickers)

/-- A two-ticker batch exercising the failure path: the provider call for
ticker "AAA" raises (modelled as `none`), the one for "BBB" succeeds with a
snapshot whose EPS is -1. -/
noncomputable def providerC2 : String → Option StockInfo :=
  fun t => if t = "BBB" then some ⟨100, -1, 0, 0, 0, 0⟩ else none

/-- Net-income histories for the two-ticker batch: none available. -/
def historiesC2 : String → List ℝ := fun _ => []

/-- The EPS gate of `analyze_stock`: a nonpositive EPS short-circuits the
analysis to the single failed criterion. -/
theorem analyzeStock_gate (info : StockInfo) (g y : ℝ) (h : info.eps ≤ 0) :
    analyzeStock info g y = ("Not Buy", [("EPS > 0", false, info.eps)]) := by
  simp only [analyzeStock, if_pos h]

/-- C1: for every input with `eps > 0`, `growthRate ∈ [0, 0.10]`,
`bondYield ∈ [0.01, 0.10]` and `currentPrice > 0`, the intrinsic value the
engine computes (the calculator's output capped at `5 * current_price`) is
at most 5 times the current price; and the calculator returns 0 whenever
`eps ≤ 0` or `bondYield ≤ 0`. -/
theorem intrinsic_value_cap_and_zero :
    (∀ eps g y p : ℝ, 0 < eps → 0 ≤ g → g ≤ 0.10 → 0.01 ≤ y → y ≤ 0.10 → 0 < p →
      cappedIntrinsicValue eps g y p ≤ 5 * p) ∧
    (∀ eps g y : ℝ, eps ≤ 0 ∨ y ≤ 0 → calculate_intrinsic_value eps g y = 0) := by
  constructor
  · intro eps g y p _ _ _ _ _ _
    exact min_le_right _ _
  · intro eps g y h
    unfold calculate_intrinsic_value
    rw [if_pos h]

/-- Witness for C1 at a concrete valid input and a concrete nonpositive EPS. -/
theorem intrinsic_value_cap_and_zero_witness :
    cappedIntrinsicValue 1 0.03 0.044 100 ≤ 5 * 100 ∧
    calculate_intrinsic_value (-1) 0.03 0.044 = 0 :=
  ⟨intrinsic_value_cap_and_zero.1 1 0.03 0.044 100 (by norm_num) (by norm_num)
      (by norm_num) (by norm_num) (by norm_num) (by norm_num),
   intrinsic_value_cap_and_zero.2 (-1) 0.03 0.044 (Or.inl (by norm_num))⟩

/-- C4: the margin of safety is always in `[-50, 100]`; when the current
price is nonzero it is the percentage formula clamped to that interval, and
it is 0 when the current price is zero; at `intrinsic = 10 * price` with
`price > 0` it is exactly 100, not 900. -/
theorem margin_of_safety_clamped :
    ∀ intrinsic p : ℝ,
      (-50 ≤ marginOfSafety intrinsic p ∧ marginOfSafety intrinsic p ≤ 100) ∧
      (p ≠ 0 → marginOfSafety intrinsic p =
        min (max ((intrinsic - p) / p * 100) (-50)) 100) ∧
      marginOfSafety intrinsic 0 = 0 ∧
      (0 < p → marginOfSafety (10 * p) p = 100) := by
  intro intrinsic p
  refine ⟨⟨?_, ?_⟩, ?_, ?_, ?_⟩
  · exact le_min (le_max_right _ _) (by norm_num)
  · exact min_le_right _ _
  · intro hp
    simp only [marginOfSafety, if_pos hp]
  · simp only [marginOfSafety, ne_eq, not_true_eq_false, if_false]
    rw [max_eq_left (by norm_num), min_eq_left (by norm_num)]
  · intro hp
    have hp' : p ≠ 0 := ne_of_gt hp
    simp only [marginOfSafety, if_pos hp']
    have h9 : (10 * p - p) / p * 100 = 900 := by field_simp; ring
    rw [h9, max_eq_left (by norm_num), min_eq_right (by norm_num)]

/-- Witness for C4 at concrete inputs, including a zero price and the
10-times-price case. -/
theorem margin_of_safety_clamped_witness :
    marginOfSafety 7 0 = 0 ∧ marginOfSafety (10 * 2) 2 = 100 :=
  ⟨(margin_of_safety_clamped 7 0).2.2.1,
   (margin_of_safety_clamped (10 * 2) 2).2.2.2 (by norm_num)⟩

/-- C7: whenever `eps ≤ 0` the analysis returns the single failed
criterion `("EPS > 0", false, eps)` with recommendation `"Not Buy"`, and no
other criterion is evaluated. -/
theorem eps_gate_single_criterion :
    ∀ (info : StockInfo) (g y : ℝ), info.eps ≤ 0 →
      analyzeStock info g y = ("Not Buy", [("EPS > 0", false, info.eps)]) :=
  fun info g y h => analyzeStock_gate info g y h

/-- Witness for C7 at `eps = -1`. -/
theorem eps_gate_single_criterion_witness :
    analyzeStock ⟨100, -1, 0, 0, 0, 0⟩ 0.03 0.044 =
      ("Not Buy", [("EPS > 0", false, -1)]) :=
  eps_gate_single_criterion ⟨100, -1, 0, 0, 0, 0⟩ 0.03 0.044 (by norm_num)

/-- C8: the bond-yield resolver is a total function of the fetch outcome:
on a failed fetch (`none`, or an empty close series where `iloc[-1]` would
raise) it returns the default yield exactly as given, for every default;
on a successful fetch it returns the latest close divided by 100 and
clamped to `[0.01, 0.10]`. -/
theorem bond_yield_resolver_spec :
    ∀ d : ℝ,
      fetch_bond_yield none d = d ∧
      fetch_bond_yield (some []) d = d ∧
      ∀ (closes : List ℝ) (c : ℝ), closes.getLast? = some c →
        fetch_bond_yield (some closes) d = max 0.01 (min (c / 100) 0.10) := by
  intro d
  refine ⟨rfl, rfl, ?_⟩
  intro closes c hc
  simp only [fetch_bond_yield, hc]

/-- Witness for C8: an out-of-range default of 0.2 is returned unclamped on
failure; a fetched close of 3.5 percent is converted and clamped. -/
theorem bond_yield_resolver_spec_witness :
    fetch_bond_yield none 0.2 = 0.2 ∧
    fetch_bond_yield (some [3.5]) 0.2 = max 0.01 (min (3.5 / 100) 0.10) :=
  ⟨(bond_yield_resolver_spec 0.2).1,
   (bond_yield_resolver_spec 0.2).2.2 [3.5] 3.5 rfl⟩

/-- Rescaling the percent-valued clamp of `get_growth_rate`
(`max(0, min(cagr, 10)) / 100`) to the decimal clamp of the spec. -/
theorem clampPercentDiv (x : ℝ) :
    max 0 (min (x * 100) 10) / 100 = max 0 (min x 0.10) := by
  rcases le_total x 0 with h0 | h0
  · rw [min_eq_left (by nlinarith), max_eq_left (by nlinarith),
      min_eq_left (by nlinarith : x ≤ 0.10), max_eq_left h0]
    norm_num
  · rcases le_total x 0.10 with h1 | h1
    · rw [min_eq_left (by nlinarith), max_eq_right (by nlinarith),
        min_eq_left h1, max_eq_right h0]
      field_simp
    · rw [min_eq_right (by nlinarith), min_eq_right h1,
        max_eq_right (by norm_num), max_eq_right (by norm_num)]
      norm_num

/-- C5: the growth-rate estimator implements the spec's reference algorithm:
on the same observations (the estimator reads them newest-first, the spec
oldest-first) the two definitions agree for every input and every default. -/
theorem growth_rate_matches_spec_algorithm :
    ∀ (netIncome : List ℝ) (d : ℝ),
      get_growth_rate netIncome d = estimateSpec netIncome.reverse d := by
  intro l d
  simp only [get_growth_rate, estimateSpec, List.length_reverse, List.reverse_reverse]
  by_cases hlen : l.length < 3
  · rw [if_pos hlen, if_pos hlen]
  · rw [if_neg hlen, if_neg hlen]
    by_cases hc : med3List l.reverse ≤ 0 ∨ med3List l ≤ 0 ∨ l.length - 1 = 0
    · simp only [calculate_cagr, if_pos hc, if_pos hc]
    · simp only [calculate_cagr, if_neg hc, if_neg hc]
      exact clampPercentDiv _

/-- The estimator's output is the default or a clamped percentage; with a
default inside `[0, 0.10]` the output stays inside `[0, 0.10]`. -/
theorem get_growth_rate_bounds (l : List ℝ) (d : ℝ) (h0 : 0 ≤ d) (h1 : d ≤ 0.10) :
    0 ≤ get_growth_rate l d ∧ get_growth_rate l d ≤ 0.10 := by
  unfold get_growth_rate
  split
  · exact ⟨h0, h1⟩
  · dsimp only
    split
    · rename_i cagr heq
      constructor
      · exact div_nonneg (le_max_left 0 _) (by norm_num)
      · have hm : max 0 (min cagr 10) ≤ 10 := max_le (by norm_num) (min_le_right _ _)
        rw [show (0.10 : ℝ) = 10 / 100 by norm_num]
        exact (div_le_div_iff_of_pos_right (by norm_num)).mpr hm
    · exact ⟨h0, h1⟩

/-- C6: for every net-income history, with the default growth of 0.03, the
growth-rate estimator's output lies in `[0, 0.10]`. -/
theorem growth_rate_in_range :
    ∀ netIncome : List ℝ,
      0 ≤ get_growth_rate netIncome 0.03 ∧ get_growth_rate netIncome 0.03 ≤ 0.10 :=
  fun l => get_growth_rate_bounds l 0.03 (by norm_num) (by norm_num)

/-- The aggregate recommendation string is the Buy string exactly when every
criterion in the list passed. -/
theorem buyString_iff_all {α : Type} (L : List (Criterion α)) :
    (if L.all (fun c => c.2.1) then "Buy" else "Not Buy") = "Buy" ↔
      ∀ c ∈ L, c.2.1 = true := by
  cases h : L.all (fun c => c.2.1) with
  | false =>
    rw [if_neg (by simp [h])]
    constructor
    · intro hb
      exact absurd hb (by decide)
    · intro hall
      have hT : L.all (fun c => c.2.1) = true := List.all_eq_true.mpr hall
      rw [h] at hT
      exact absurd hT (by decide)
  | true =>
    rw [if_pos (by simp [h])]
    exact iff_of_true rfl (List.all_eq_true.mp h)

/-- C3: when EPS is positive the criteria vector has exactly the 7 criteria
in the fixed order and the recommendation is Buy exactly when every
criterion passed; the concrete instance
`eps=5, pe=15, pb=1, dte=0.3, intrinsic=200, price=100, margin=100,
dividendYield=2` yields Buy with all 7 criteria passing. -/
theorem criteria_vector_and_buy_iff :
    (∀ (info : StockInfo) (g y : ℝ), 0 < info.eps →
      ((analyzeStock info g y).2.map Prod.fst =
        ["EPS > 0", "P/E < 20", "P/B < 2", "Debt-to-Equity < 0.5",
         "Intrinsic Value > Current Price", "Margin of Safety > 30%",
         "Dividend Yield > 0"] ∧
       ((analyzeStock info g y).1 = "Buy" ↔
         ∀ c ∈ (analyzeStock info g y).2, c.2.1 = true))) ∧
    evaluateCriteria (5 : ℚ) 15 1 0.3 200 100 100 2 =
      ("Buy",
       [("EPS > 0", true, 5), ("P/E < 20", true, 15), ("P/B < 2", true, 1),
        ("Debt-to-Equity < 0.5", true, 0.3),
        ("Intrinsic Value > Current Price", true, 200),
        ("Margin of Safety > 30%", true, 100),
        ("Dividend Yield > 0", true, 2)]) := by
  constructor
  · intro info g y heps
    have hgate : ¬ info.eps ≤ 0 := not_le.mpr heps
    simp only [analyzeStock, if_neg hgate]
    constructor
    · simp [evaluateCriteria]
    · simp only [evaluateCriteria]
      exact buyString_iff_all _
  · norm_num [evaluateCriteria]

/-- Witness for C3 at a concrete positive-EPS snapshot. -/
theorem criteria_vector_and_buy_iff_witness :
    ((analyzeStock ⟨100, 5, 15, 1, 0.3, 0.02⟩ 0.03 0.044).2.map Prod.fst =
      ["EPS > 0", "P/E < 20", "P/B < 2", "Debt-to-Equity < 0.5",
       "Intrinsic Value > Current Price", "Margin of Safety > 30%",
       "Dividend Yield > 0"] ∧
     ((analyzeStock ⟨100, 5, 15, 1, 0.3, 0.02⟩ 0.03 0.044).1 = "Buy" ↔
       ∀ c ∈ (analyzeStock ⟨100, 5, 15, 1, 0.3, 0.02⟩ 0.03 0.044).2, c.2.1 = true)) :=
  criteria_vector_and_buy_iff.1 ⟨100, 5, 15, 1, 0.3, 0.02⟩ 0.03 0.044
    (by norm_num : (0 : ℝ) < 5)

/-- C9: the outlier detector returns no threshold on fewer than 10 values;
on at least 10 values it returns `median + 3 * populationStdDev`; and on the
ten values `[10, ..., 10, 1000]` the threshold is strictly greater than the
median. -/
theorem outlier_detector_spec :
    (∀ l : List ℝ, l.length < 10 → detect_outliers l = none) ∧
    (∀ l : List ℝ, ¬ l.length < 10 →
      detect_outliers l = some (npMedian l + 3 * npStd l)) ∧
    (∃ t : ℝ,
      detect_outliers [10, 10, 10, 10, 10, 10, 10, 10, 10, 1000] = some t ∧
      npMedian [10, 10, 10, 10, 10, 10, 10, 10, 10, 1000] < t) := by
  have hshort : ∀ l : List ℝ, l.length < 10 → detect_outliers l = none := by
    intro l h
    unfold detect_outliers
    rw [if_pos h]
  have hlong : ∀ l : List ℝ, ¬ l.length < 10 →
      detect_outliers l = some (npMedian l + 3 * npStd l) := by
    intro l h
    unfold detect_outliers
    rw [if_neg h]
  refine ⟨hshort, hlong, 901, ?_, ?_⟩
  · have hs : sortList [10, 10, 10, 10, 10, 10, 10, 10, 10, 1000] =
        ([10, 10, 10, 10, 10, 10, 10, 10, 10, 1000] : List ℝ) := by
      norm_num [sortList, insertSorted]
    have hmed : npMedian [10, 10, 10, 10, 10, 10, 10, 10, 10, 1000] = 10 := by
      simp only [npMedian, hs]
      norm_num [List.getD]
    have hsum : ([10, 10, 10, 10, 10, 10, 10, 10, 10, 1000] : List ℝ).sum = 1090 := by
      norm_num [List.sum_cons]
    have hmean : npMean [10, 10, 10, 10, 10, 10, 10, 10, 10, 1000] = 109 := by
      rw [npMean, hsum]
      norm_num
    have hstd : npStd [10, 10, 10, 10, 10, 10, 10, 10, 10, 1000] = 297 := by
      rw [npStd, hmean]
      norm_num [List.sum_cons]
      rw [show (88209 : ℝ) = 297 ^ 2 by norm_num]
      exact Real.sqrt_sq (by norm_num)
    rw [hlong _ (by norm_num), hmed, hstd]
    norm_num
  · have hmed : npMedian [10, 10, 10, 10, 10, 10, 10, 10, 10, 1000] = 10 := by
      have hs : sortList [10, 10, 10, 10, 10, 10, 10, 10, 10, 1000] =
          ([10, 10, 10, 10, 10, 10, 10, 10, 10, 1000] : List ℝ) := by
        norm_num [sortList, insertSorted]
      simp only [npMedian, hs]
      norm_num [List.getD]
    rw [hmed]
    norm_num

/-- Witness for C9: the short-list and long-list branches at concrete
inputs. -/
theorem outlier_detector_spec_witness :
    detect_outliers [1, 2, 3] = none ∧
    detect_outliers [10, 10, 10, 10, 10, 10, 10, 10, 10, 1000] =
      some (npMedian [10, 10, 10, 10, 10, 10, 10, 10, 10, 1000] +
        3 * npStd [10, 10, 10, 10, 10, 10, 10, 10, 10, 1000]) :=
  ⟨outlier_detector_spec.1 [1, 2, 3] (by norm_num),
   outlier_detector_spec.2.1 [10, 10, 10, 10, 10, 10, 10, 10, 10, 1000] (by norm_num)⟩

/-- With a nonnegative growth rate the intrinsic-value calculator never
returns a negative value: the log-dampened multiplier and `4.4 / y` are
nonnegative in the non-skipped branch. -/
theorem calculate_intrinsic_value_nonneg (eps g y : ℝ) (hg : 0 ≤ g) :
    0 ≤ calculate_intrinsic_value eps g y := by
  unfold calculate_intrinsic_value
  split
  · exact le_refl 0
  · rename_i h
    push_neg at h
    obtain ⟨heps, hy⟩ := h
    have hlog : 0 ≤ Real.log (1 + g * 100) := Real.log_nonneg (by nlinarith)
    have hmin : 0 ≤ min (Real.log (1 + g * 100)) 2 := le_min hlog (by norm_num)
    have hadj : 0 ≤ 7 + 1.5 * min (Real.log (1 + g * 100)) 2 := by nlinarith
    exact mul_nonneg (mul_nonneg heps.le hadj) (div_nonneg (by norm_num) hy.le)

/-- The zero-price sentinel: the margin of safety at a zero current price
is 0 whatever the intrinsic value. -/
theorem marginOfSafety_zero_price (iv : ℝ) : marginOfSafety iv 0 = 0 := by
  simp only [marginOfSafety, ne_eq, not_true_eq_false, if_false]
  rw [max_eq_left (by norm_num), min_eq_left (by norm_num)]

/-- C10: for a ticker with a zero (or missing, defaulted-to-0) current price
and positive EPS, the engine divides by nothing: the margin of safety takes
the sentinel 0, the capped intrinsic value is `min(intrinsic, 0) = 0`, the
criterion "Intrinsic Value > Current Price" fails with observed value 0, and
the recommendation is not Buy.  The growth rate is whatever the estimator
produced from the ticker's net-income history. -/
theorem zero_price_never_buy :
    ∀ (info : StockInfo) (netIncome : List ℝ) (y : ℝ),
      info.currentPrice = 0 → 0 < info.eps →
      cappedIntrinsicValue info.eps (get_growth_rate netIncome 0.03) y
          info.currentPrice = 0 ∧
      marginOfSafety
        (cappedIntrinsicValue info.eps (get_growth_rate netIncome 0.03) y
          info.currentPrice) info.currentPrice = 0 ∧
      (analyzeStock info (get_growth_rate netIncome 0.03) y).2.getD 4 ("", true, 0) =
        ("Intrinsic Value > Current Price", false, 0) ∧
      (analyzeStock info (get_growth_rate netIncome 0.03) y).1 ≠ "Buy" := by
  intro info l y hp heps
  have hg0 : 0 ≤ get_growth_rate l 0.03 :=
    (get_growth_rate_bounds l 0.03 (by norm_num) (by norm_num)).1
  have hiv0 : cappedIntrinsicValue info.eps (get_growth_rate l 0.03) y 0 = 0 := by
    unfold cappedIntrinsicValue
    rw [mul_zero]
    exact min_eq_right (calculate_intrinsic_value_nonneg _ _ _ hg0)
  have hgate : ¬ info.eps ≤ 0 := not_le.mpr heps
  refine ⟨by rw [hp]; exact hiv0, by rw [hp, hiv0]; exact marginOfSafety_zero_price 0,
    ?_, ?_⟩
  · simp only [analyzeStock, if_neg hgate, evaluateCriteria, hp, hiv0,
      marginOfSafety_zero_price]
    simp [lt_irrefl]
  · simp only [analyzeStock, if_neg hgate, evaluateCriteria, hp, hiv0,
      marginOfSafety_zero_price]
    intro hbuy
    have hall := (buyString_iff_all _).mp hbuy
    have hmem := hall ("Intrinsic Value > Current Price",
        decide ((0 : ℝ) > 0), (0 : ℝ))
      (List.Mem.tail _ (List.Mem.tail _ (List.Mem.tail _
        (List.Mem.tail _ (List.Mem.head _)))))
    simp at hmem

/-- Witness for C10 at a concrete zero-price, positive-EPS snapshot. -/
theorem zero_price_never_buy_witness :
    cappedIntrinsicValue 5 (get_growth_rate [] 0.03) 0.044 0 = 0 ∧
    marginOfSafety (cappedIntrinsicValue 5 (get_growth_rate [] 0.03) 0.044 0) 0 = 0 ∧
    (analyzeStock ⟨0, 5, 1, 1, 0.1, 0.01⟩ (get_growth_rate [] 0.03) 0.044).2.getD 4
      ("", true, 0) = ("Intrinsic Value > Current Price", false, 0) ∧
    (analyzeStock ⟨0, 5, 1, 1, 0.1, 0.01⟩ (get_growth_rate [] 0.03) 0.044).1 ≠ "Buy" :=
  zero_price_never_buy ⟨0, 5, 1, 1, 0.1, 0.01⟩ [] 0.044 rfl
    (by norm_num : (0 : ℝ) < 5)

/-- C2, evaluated at the failing input: on the batch `["AAA", "BBB"]` where
"AAA"'s provider call throws, `main` produces an EMPTY error list — not
`["AAA"]` as the spec requires — because `analyze_stock` catches the
exception and returns the value `("Error", [])`, which the
`isinstance(result, Exception)` test in `main` never classifies as an
error; the failed ticker is silently dropped.  The sibling ticker "BBB" is
unaffected and classified exactly as its standalone analysis. -/
theorem batch_drops_failed_ticker_from_error_list :
    (mainModel providerC2 historiesC2 0.044 ["AAA", "BBB"]).2 = [] ∧
    (mainModel providerC2 historiesC2 0.044 ["AAA", "BBB"]).2 ≠ ["AAA"] ∧
    analyzeStockTask (providerC2 "AAA") (historiesC2 "AAA") 0.044 = ("Error", []) ∧
    analyzeStockTask (providerC2 "BBB") (historiesC2 "BBB") 0.044 =
      ("Not Buy", [("EPS > 0", false, -1)]) ∧
    (mainModel providerC2 historiesC2 0.044 ["AAA", "BBB"]).1 = [] := by
  have hA : providerC2 "AAA" = none := by
    unfold providerC2
    rw [if_neg (by decide)]
  have hB : providerC2 "BBB" = some ⟨100, -1, 0, 0, 0, 0⟩ := by
    unfold providerC2
    rw [if_pos rfl]
  have htaskA : analyzeStockTask (providerC2 "AAA") (historiesC2 "AAA") 0.044 =
      ("Error", []) := by
    rw [hA]
    rfl
  have htaskB : analyzeStockTask (providerC2 "BBB") (historiesC2 "BBB") 0.044 =
      ("Not Buy", [("EPS > 0", false, -1)]) := by
    rw [hB]
    show analyzeStock ⟨100, -1, 0, 0, 0, 0⟩ _ _ = _
    exact analyzeStock_gate ⟨100, -1, 0, 0, 0, 0⟩ _ _ (by norm_num)
  have hmain : mainModel providerC2 historiesC2 0.044 ["AAA", "BBB"] = ([], []) := by
    unfold mainModel gatherResults
    rw [List.map_cons, List.map_cons, List.map_nil, htaskA, htaskB]
    unfold processResults processResults processResults
    dsimp only
    rw [if_neg (by decide), if_neg (by decide)]
  rw [hmain]
  exact ⟨rfl, by decide, htaskA, htaskB, rfl⟩

end Stockworth
